import Mathlib

/-!
Verification of the capital-works portal core: the client-side record
validator/deriver (`parseNumber`, `computed`, `validate`, submit payload),
the proxy error path (`forwardRequest`), and the query engine
(filter/list/summarize) described by the spec.  Numeric values are modelled
as rationals; JavaScript `NaN` is modelled as `none` in `Option ℚ`.
-/

/-- JavaScript `String.prototype.trim`: strip whitespace from both ends. -/
def jsTrim (s : String) : String :=
  ⟨((s.data.dropWhile Char.isWhitespace).reverse.dropWhile Char.isWhitespace).reverse⟩

/-- Value of a list of decimal digit characters, most significant first. -/
def digitsVal (cs : List Char) : Nat :=
  cs.foldl (fun a c => a * 10 + (c.toNat - '0'.toNat)) 0

/-- `Number.parseInt(s, 10)` on an already-trimmed string: an optional sign
followed by the longest prefix of decimal digits; `none` (NaN) when no digit
follows the sign.  Trailing non-digit characters are ignored, so
`parseInt("5.9") = 5`. -/
def jsParseInt (s : String) : Option ℚ :=
  let cs := s.data
  let neg : Bool :=
    match cs with
    | '-' :: _ => true
    | _ => false
  let rest : List Char :=
    match cs with
    | '-' :: r => r
    | '+' :: r => r
    | r => r
  let ds := rest.takeWhile Char.isDigit
  if ds.isEmpty then none
  else some (mkRat ((if neg then -1 else 1) * Int.ofNat (digitsVal ds)) 1)

/-- `Number(s)` on an already-trimmed, non-empty string, for the decimal
literal grammar the numeric form inputs produce: optional sign, integer
digits, optional fraction; the whole string must be consumed and at least
one digit must be present.  `none` models NaN. -/
def jsNumber (s : String) : Option ℚ :=
  let cs := s.data
  let neg : Bool :=
    match cs with
    | '-' :: _ => true
    | _ => false
  let rest : List Char :=
    match cs with
    | '-' :: r => r
    | '+' :: r => r
    | r => r
  let intPart := rest.takeWhile Char.isDigit
  let rest2 := rest.drop intPart.length
  match rest2 with
  | [] =>
    if intPart.isEmpty then none
    else some (mkRat ((if neg then -1 else 1) * Int.ofNat (digitsVal intPart)) 1)
  | '.' :: r3 =>
    let fracPart := r3.takeWhile Char.isDigit
    let rest4 := r3.drop fracPart.length
    if rest4.isEmpty then
      if intPart.isEmpty && fracPart.isEmpty then none
      else
        some (mkRat
          ((if neg then -1 else 1) *
            Int.ofNat (digitsVal intPart * 10 ^ fracPart.length + digitsVal fracPart))
          (10 ^ fracPart.length))
    else none
  | _ => none

/-- The numeric field kinds of the form: `"int"` fields are parsed with
`Number.parseInt`, `"float"` fields with `Number`. -/
inductive NumType
  | int
  | float
  deriving DecidableEq

/-- Result shape of `parseNumber`: `{ value, error }`. -/
structure ParseResult where
  value : Option ℚ
  error : String
  deriving DecidableEq

/-- `parseNumber(value, type)` from `user/new-task/page.tsx` and
`TaskEditModal.tsx` (both files define it identically): trim, report
`"Required."` when blank, parse by field kind, report a parse error on NaN,
report `"Must be non-negative."` on a negative value, otherwise return the
parsed value with an empty error string. -/
def parseNumber (value : String) (type : NumType) : ParseResult :=
  let trimmed := jsTrim value
  if trimmed.data.isEmpty then ⟨none, "Required."⟩
  else
    let parsed := match type with
      | .int => jsParseInt trimmed
      | .float => jsNumber trimmed
    match parsed with
    | none =>
      ⟨none, match type with
        | .int => "Enter a whole number."
        | .float => "Enter a valid number."⟩
    | some p =>
      if p < 0 then ⟨none, "Must be non-negative."⟩
      else ⟨some p, ""⟩

/-- The parse-failure message for a field kind. -/
def parseFailMessage : NumType → String
  | .int => "Enter a whole number."
  | .float => "Enter a valid number."

/-- The parser a field kind uses. -/
def parseOf : NumType → String → Option ℚ
  | .int => jsParseInt
  | .float => jsNumber

theorem parseNumber_eq (value : String) (type : NumType) :
    parseNumber value type =
      if (jsTrim value).data.isEmpty then ⟨none, "Required."⟩
      else
        match parseOf type (jsTrim value) with
        | none => ⟨none, parseFailMessage type⟩
        | some p => if p < 0 then ⟨none, "Must be non-negative."⟩ else ⟨some p, ""⟩ := by
  cases type <;> simp [parseNumber, parseOf, parseFailMessage]

/-- A successful parse carries a non-negative value and an empty error. -/
theorem parseNumber_shape (value : String) (type : NumType) :
    ((∃ q, (parseNumber value type).value = some q ∧ 0 ≤ q) ∧
      (parseNumber value type).error = "") ∨
    ((parseNumber value type).value = none ∧ (parseNumber value type).error ≠ "") := by
  rw [parseNumber_eq]
  by_cases hblank : (jsTrim value).data.isEmpty
  · simp [hblank]
  · simp only [hblank, if_false]
    cases hp : parseOf type (jsTrim value) with
    | none => right; cases type <;> simp [parseFailMessage]
    | some p =>
      by_cases hneg : p < 0
      · simp [hneg]
      · left
        simp only [hneg, if_false]
        exact ⟨⟨p, rfl, le_of_not_lt hneg⟩, rfl⟩

/-- The raw form state: every field is the user-entered string
(`FormState` in `user/new-task/page.tsx`, `TaskForm` in
`TaskEditModal.tsx`). -/
structure FormState where
  sub_division : String
  account_code : String
  number_of_works : String
  estimate_amount : String
  agreement_amount : String
  exp_upto_31_03_2025 : String
  exp_upto_last_month : String
  exp_during_this_month : String
  works_completed : String
  deriving DecidableEq

/-- The local `toNumber` of the `computed` memo: blank input is NaN,
otherwise `Number(trimmed)`. -/
def toNumber (value : String) : Option ℚ :=
  let trimmed := jsTrim value
  if trimmed.data.isEmpty then none else jsNumber trimmed

/-- The four derived preview values; `none` models the `null` shown as
`"-"`. -/
structure Computed where
  balanceAmount : Option ℚ
  totalYear : Option ℚ
  totalValue : Option ℚ
  balanceWorks : Option ℚ
  deriving DecidableEq

/-- The `computed` memo of `UserTaskClient` (`TaskEditModal` has the
identical block): each derived value is produced only when its inputs are
finite numbers. -/
def computed (f : FormState) : Computed :=
  let agreement := toNumber f.agreement_amount
  let exp31 := toNumber f.exp_upto_31_03_2025
  let expLast := toNumber f.exp_upto_last_month
  let expThis := toNumber f.exp_during_this_month
  let works := toNumber f.number_of_works
  let completed := toNumber f.works_completed
  let balanceAmount := match agreement, exp31 with
    | some a, some e => some (a - e)
    | _, _ => none
  let totalYear := match expLast, expThis with
    | some l, some t => some (l + t)
    | _, _ => none
  let totalValue := match exp31, totalYear with
    | some e, some y => some (e + y)
    | _, _ => none
  let balanceWorks := match works, completed with
    | some w, some c => some (w - c)
    | _, _ => none
  ⟨balanceAmount, totalYear, totalValue, balanceWorks⟩

/-- `resolvedSubdivision` from `UserTaskClient`: the free-text
"Other..." entry or the selected subdivision, trimmed. -/
def resolvedSubdivision (f : FormState) (otherSubdivision : String) : String :=
  if f.sub_division = "Other..." then jsTrim otherSubdivision else jsTrim f.sub_division

/-- The error map built by `validate`: one optional message per form key
(the JS `Record<string, string>` has exactly these possible keys). -/
structure ValidationErrors where
  sub_division : Option String
  account_code : Option String
  number_of_works : Option String
  estimate_amount : Option String
  agreement_amount : Option String
  exp_upto_31_03_2025 : Option String
  exp_upto_last_month : Option String
  exp_during_this_month : Option String
  works_completed : Option String
  deriving DecidableEq

/-- The per-field loop body `if (result.error) nextErrors[field] = result.error`. -/
def errOf (r : ParseResult) : Option String :=
  if r.error = "" then none else some r.error

/-- `validate` from `UserTaskClient` (`user/new-task/page.tsx`); the
cross-field rules can only fire when the involved fields parsed, in which
case they are the only writers of their key, so the JS overwrite order is
preserved. -/
def UserTaskClient.validate (resolved : String) (f : FormState) : ValidationErrors :=
  let works := (parseNumber f.number_of_works .int).value
  let completed := (parseNumber f.works_completed .int).value
  let agreement := (parseNumber f.agreement_amount .float).value
  let exp31 := (parseNumber f.exp_upto_31_03_2025 .float).value
  { sub_division :=
      if resolved.data.isEmpty then some "Sub-Division is required." else none
    account_code :=
      if f.account_code = "Spill" ∨ f.account_code = "New" then none
      else some "Account Code is required."
    number_of_works := errOf (parseNumber f.number_of_works .int)
    estimate_amount := errOf (parseNumber f.estimate_amount .float)
    agreement_amount := errOf (parseNumber f.agreement_amount .float)
    exp_upto_last_month := errOf (parseNumber f.exp_upto_last_month .float)
    exp_during_this_month := errOf (parseNumber f.exp_during_this_month .float)
    works_completed :=
      match works, completed with
      | some w, some c =>
        if w < c then some "Number of Works Completed cannot exceed Number of Works."
        else errOf (parseNumber f.works_completed .int)
      | _, _ => errOf (parseNumber f.works_completed .int)
    exp_upto_31_03_2025 :=
      match agreement, exp31 with
      | some a, some e =>
        if a < e then some "Expenditure up to 31-03-2025 must be <= Agreement Amount."
        else errOf (parseNumber f.exp_upto_31_03_2025 .float)
      | _, _ => errOf (parseNumber f.exp_upto_31_03_2025 .float) }

/-- `validate` from `TaskEditModal`, whose sub-division presence check is
`!form.sub_division.trim()`; the rest is identical to `UserTaskClient`. -/
def TaskEditModal.validate (f : FormState) : ValidationErrors :=
  UserTaskClient.validate (jsTrim f.sub_division) f

/-- `Object.keys(validation).length > 0`: the form is rejected iff some key
holds an error. -/
def hasErrors (e : ValidationErrors) : Bool :=
  e.sub_division.isSome || e.account_code.isSome || e.number_of_works.isSome ||
  e.estimate_amount.isSome || e.agreement_amount.isSome || e.exp_upto_31_03_2025.isSome ||
  e.exp_upto_last_month.isSome || e.exp_during_this_month.isSome || e.works_completed.isSome

/-- JavaScript `Number(s)` as a coercion (used when building the submit
payload): a blank string converts to `0`, otherwise the trimmed string is
parsed as a number. -/
def jsNumberConv (s : String) : Option ℚ :=
  let trimmed := jsTrim s
  if trimmed.data.isEmpty then some 0 else jsNumber trimmed

/-- The JSON body sent by `handleSubmit` / `handleSave`; numeric members
are `Number(form.x)` (NaN modelled as `none`). -/
structure TaskPayload where
  sub_division : String
  account_code : String
  number_of_works : Option ℚ
  estimate_amount : Option ℚ
  agreement_amount : Option ℚ
  exp_upto_31_03_2025 : Option ℚ
  exp_upto_last_month : Option ℚ
  exp_during_this_month : Option ℚ
  works_completed : Option ℚ
  deriving DecidableEq

/-- The payload built by `UserTaskClient.handleSubmit` once validation
passes (`TaskEditModal.handleSave` builds the same numeric members). -/
def UserTaskClient.payload (resolved : String) (f : FormState) : TaskPayload :=
  { sub_division := resolved
    account_code := f.account_code
    number_of_works := jsNumberConv f.number_of_works
    estimate_amount := jsNumberConv f.estimate_amount
    agreement_amount := jsNumberConv f.agreement_amount
    exp_upto_31_03_2025 := jsNumberConv f.exp_upto_31_03_2025
    exp_upto_last_month := jsNumberConv f.exp_upto_last_month
    exp_during_this_month := jsNumberConv f.exp_during_this_month
    works_completed := jsNumberConv f.works_completed }

/-- The seven raw numeric form fields. -/
inductive NumField
  | number_of_works
  | estimate_amount
  | agreement_amount
  | exp_upto_31_03_2025
  | exp_upto_last_month
  | exp_during_this_month
  | works_completed
  deriving DecidableEq

/-- `intFields` parse as `"int"`, `floatFields` as `"float"`. -/
def NumField.fieldType : NumField → NumType
  | .number_of_works => .int
  | .works_completed => .int
  | _ => .float

/-- The raw string a form holds for a numeric field. -/
def FormState.field (f : FormState) : NumField → String
  | .number_of_works => f.number_of_works
  | .estimate_amount => f.estimate_amount
  | .agreement_amount => f.agreement_amount
  | .exp_upto_31_03_2025 => f.exp_upto_31_03_2025
  | .exp_upto_last_month => f.exp_upto_last_month
  | .exp_during_this_month => f.exp_during_this_month
  | .works_completed => f.works_completed

/-- The error-map entry for a numeric field. -/
def ValidationErrors.entry (e : ValidationErrors) : NumField → Option String
  | .number_of_works => e.number_of_works
  | .estimate_amount => e.estimate_amount
  | .agreement_amount => e.agreement_amount
  | .exp_upto_31_03_2025 => e.exp_upto_31_03_2025
  | .exp_upto_last_month => e.exp_upto_last_month
  | .exp_during_this_month => e.exp_during_this_month
  | .works_completed => e.works_completed

theorem parseNumber_value_none_of_error (value : String) (type : NumType)
    (h : (parseNumber value type).error ≠ "") : (parseNumber value type).value = none := by
  rcases parseNumber_shape value type with ⟨_, he⟩ | ⟨hv, _⟩
  · exact absurd he h
  · exact hv

theorem parseNumber_error_empty_of_value (value : String) (type : NumType) (q : ℚ)
    (h : (parseNumber value type).value = some q) : (parseNumber value type).error = "" := by
  rcases parseNumber_shape value type with ⟨_, he⟩ | ⟨hv, _⟩
  · exact he
  · rw [hv] at h
    cases h

theorem errOf_of_error (r : ParseResult) (h : r.error ≠ "") : errOf r = some r.error := by
  simp [errOf, h]

/-- The end-to-end scenario form of the spec. -/
def scenarioForm : FormState :=
  { sub_division := "RKV SubDiv-1"
    account_code := "New"
    number_of_works := "10"
    estimate_amount := "1000"
    agreement_amount := "900"
    exp_upto_31_03_2025 := "400"
    exp_upto_last_month := "100"
    exp_during_this_month := "50"
    works_completed := "4" }

/-- C1: when every raw numeric field parses to a finite number, the derived
fields are exactly `agreement_amount - exp_upto_31_03_2025`,
`exp_upto_last_month + exp_during_this_month`,
`exp_upto_31_03_2025 + total_exp_during_year` and
`number_of_works - works_completed`. -/
theorem computed_fields_formula (f : FormState) (a e l t w c : ℚ)
    (ha : toNumber f.agreement_amount = some a)
    (he : toNumber f.exp_upto_31_03_2025 = some e)
    (hl : toNumber f.exp_upto_last_month = some l)
    (ht : toNumber f.exp_during_this_month = some t)
    (hw : toNumber f.number_of_works = some w)
    (hc : toNumber f.works_completed = some c) :
    computed f = ⟨some (a - e), some (l + t), some (e + (l + t)), some (w - c)⟩ := by
  simp [computed, ha, he, hl, ht, hw, hc]

/-- C1 witness: the spec scenario input yields balance 500, year total 150,
total value 550, balance works 6. -/
theorem computed_fields_formula_witness :
    computed scenarioForm = ⟨some 500, some 150, some 550, some 6⟩ := by
  have h := computed_fields_formula scenarioForm 900 400 100 50 10 4
    (by decide)
    (by decide)
    (by decide)
    (by decide)
    (by decide)
    (by decide)
  rw [h]
  norm_num [Computed.mk.injEq]

/-- C2: each numeric field's failed check lands in the error map at that
field's own key, independent of every other field, so several invalid
fields are all reported at once. -/
theorem validate_collects_all_field_errors (resolved : String) (f : FormState) (fld : NumField)
    (h : (parseNumber (f.field fld) fld.fieldType).error ≠ "") :
    (UserTaskClient.validate resolved f).entry fld =
      some (parseNumber (f.field fld) fld.fieldType).error := by
  cases fld with
  | number_of_works =>
    simp only [FormState.field, NumField.fieldType] at h ⊢
    simp [UserTaskClient.validate, ValidationErrors.entry, errOf_of_error _ h]
  | estimate_amount =>
    simp only [FormState.field, NumField.fieldType] at h ⊢
    simp [UserTaskClient.validate, ValidationErrors.entry, errOf_of_error _ h]
  | agreement_amount =>
    simp only [FormState.field, NumField.fieldType] at h ⊢
    simp [UserTaskClient.validate, ValidationErrors.entry, errOf_of_error _ h]
  | exp_upto_last_month =>
    simp only [FormState.field, NumField.fieldType] at h ⊢
    simp [UserTaskClient.validate, ValidationErrors.entry, errOf_of_error _ h]
  | exp_during_this_month =>
    simp only [FormState.field, NumField.fieldType] at h ⊢
    simp [UserTaskClient.validate, ValidationErrors.entry, errOf_of_error _ h]
  | works_completed =>
    simp only [FormState.field, NumField.fieldType] at h ⊢
    have hv := parseNumber_value_none_of_error _ _ h
    cases hw : (parseNumber f.number_of_works .int).value <;>
      simp [UserTaskClient.validate, ValidationErrors.entry, hv, hw, errOf_of_error _ h]
  | exp_upto_31_03_2025 =>
    simp only [FormState.field, NumField.fieldType] at h ⊢
    have hv := parseNumber_value_none_of_error _ _ h
    cases ha : (parseNumber f.agreement_amount .float).value <;>
      simp [UserTaskClient.validate, ValidationErrors.entry, hv, ha, errOf_of_error _ h]

/-- A form with two independently negative numeric fields. -/
def negativesForm : FormState :=
  { sub_division := "RKV SubDiv-1"
    account_code := "New"
    number_of_works := "-3"
    estimate_amount := "1000"
    agreement_amount := "-900"
    exp_upto_31_03_2025 := "400"
    exp_upto_last_month := "100"
    exp_during_this_month := "50"
    works_completed := "1" }

/-- C2 witness: with both `number_of_works` and `agreement_amount`
negative, the error map reports both fields simultaneously. -/
theorem validate_collects_all_field_errors_witness :
    (UserTaskClient.validate "RKV SubDiv-1" negativesForm).entry .number_of_works =
        some "Must be non-negative." ∧
    (UserTaskClient.validate "RKV SubDiv-1" negativesForm).entry .agreement_amount =
        some "Must be non-negative." := by
  constructor
  · rw [validate_collects_all_field_errors "RKV SubDiv-1" negativesForm .number_of_works
      (by decide)]
    decide
  · rw [validate_collects_all_field_errors "RKV SubDiv-1" negativesForm .agreement_amount
      (by decide)]
    decide

/-- C3: whenever both count fields parse and `works_completed` exceeds
`number_of_works`, validation fails with the error attached to
`works_completed`, whatever the other fields hold. -/
theorem validate_flags_works_completed_exceeds (resolved : String) (f : FormState) (w c : ℚ)
    (hw : (parseNumber f.number_of_works .int).value = some w)
    (hc : (parseNumber f.works_completed .int).value = some c)
    (hgt : w < c) :
    (UserTaskClient.validate resolved f).works_completed =
      some "Number of Works Completed cannot exceed Number of Works." ∧
    hasErrors (UserTaskClient.validate resolved f) = true := by
  have hentry : (UserTaskClient.validate resolved f).works_completed =
      some "Number of Works Completed cannot exceed Number of Works." := by
    simp [UserTaskClient.validate, hw, hc, hgt]
  exact ⟨hentry, by simp [hasErrors, hentry]⟩

/-- A form where only the works-count invariant is broken and several other
fields are blank. -/
def exceedForm : FormState :=
  { sub_division := ""
    account_code := ""
    number_of_works := "5"
    estimate_amount := ""
    agreement_amount := ""
    exp_upto_31_03_2025 := ""
    exp_upto_last_month := ""
    exp_during_this_month := ""
    works_completed := "7" }

/-- C3 witness: `works_completed = 7 > 5 = number_of_works` is flagged even
though other fields are themselves invalid. -/
theorem validate_flags_works_completed_exceeds_witness :
    (UserTaskClient.validate "" exceedForm).works_completed =
      some "Number of Works Completed cannot exceed Number of Works." ∧
    hasErrors (UserTaskClient.validate "" exceedForm) = true :=
  validate_flags_works_completed_exceeds "" exceedForm 5 7 (by decide) (by decide) (by decide)

/-- C4: whenever both money fields parse and `exp_upto_31_03_2025` exceeds
`agreement_amount`, validation fails with the error attached to
`exp_upto_31_03_2025`. -/
theorem validate_flags_exp31_exceeds_agreement (resolved : String) (f : FormState) (a e : ℚ)
    (ha : (parseNumber f.agreement_amount .float).value = some a)
    (he : (parseNumber f.exp_upto_31_03_2025 .float).value = some e)
    (hgt : a < e) :
    (UserTaskClient.validate resolved f).exp_upto_31_03_2025 =
      some "Expenditure up to 31-03-2025 must be <= Agreement Amount." ∧
    hasErrors (UserTaskClient.validate resolved f) = true := by
  have hentry : (UserTaskClient.validate resolved f).exp_upto_31_03_2025 =
      some "Expenditure up to 31-03-2025 must be <= Agreement Amount." := by
    simp [UserTaskClient.validate, ha, he, hgt]
  exact ⟨hentry, by simp [hasErrors, hentry]⟩

/-- A form where expenditure up to 31-03-2025 exceeds the agreement
amount. -/
def overspentForm : FormState :=
  { sub_division := "RKV SubDiv-2"
    account_code := "Spill"
    number_of_works := "3"
    estimate_amount := "1000"
    agreement_amount := "400.50"
    exp_upto_31_03_2025 := "900"
    exp_upto_last_month := "10"
    exp_during_this_month := "5"
    works_completed := "1" }

/-- C4 witness: `exp_upto_31_03_2025 = 900 > 400.50 = agreement_amount` is
flagged on `exp_upto_31_03_2025`. -/
theorem validate_flags_exp31_exceeds_agreement_witness :
    (UserTaskClient.validate "RKV SubDiv-2" overspentForm).exp_upto_31_03_2025 =
      some "Expenditure up to 31-03-2025 must be <= Agreement Amount." ∧
    hasErrors (UserTaskClient.validate "RKV SubDiv-2" overspentForm) = true :=
  validate_flags_exp31_exceeds_agreement "RKV SubDiv-2" overspentForm (mkRat 4005 10) 900
    (by decide) (by decide) (by decide)

/-- A form whose `works_completed` entry `"5.9"` truncates to `5` under
`parseInt` but converts to `5.9` under `Number`. -/
def fractionalForm : FormState :=
  { sub_division := "RKV SubDiv-1"
    account_code := "New"
    number_of_works := "5"
    estimate_amount := "1"
    agreement_amount := "2"
    exp_upto_31_03_2025 := "1"
    exp_upto_last_month := "1"
    exp_during_this_month := "1"
    works_completed := "5.9" }

/-- C9: a form exists that passes `validate` with no errors while the
submitted payload carries `works_completed > number_of_works`, because
validation truncates `"5.9"` via `parseInt` but the payload uses
`Number`. -/
theorem validate_pass_payload_violates_invariant :
    hasErrors (UserTaskClient.validate
      (resolvedSubdivision fractionalForm "") fractionalForm) = false ∧
    ∃ w c : ℚ,
      (UserTaskClient.payload (resolvedSubdivision fractionalForm "") fractionalForm).number_of_works
          = some w ∧
      (UserTaskClient.payload (resolvedSubdivision fractionalForm "") fractionalForm).works_completed
          = some c ∧
      w < c :=
  ⟨by decide, 5, mkRat 59 10, by decide, by decide, by decide⟩

/-- C10: `parseNumber` returns exactly one of the two shapes — a non-null,
non-negative value with an empty error, or a null value with a non-empty
message — and the checks run in the fixed order presence, parse,
non-negativity. -/
theorem parseNumber_result_shape_and_order (value : String) (type : NumType) :
    (((∃ q, (parseNumber value type).value = some q ∧ 0 ≤ q) ∧
        (parseNumber value type).error = "") ∨
      ((parseNumber value type).value = none ∧ (parseNumber value type).error ≠ "")) ∧
    ((jsTrim value).data.isEmpty = true → parseNumber value type = ⟨none, "Required."⟩) ∧
    ((jsTrim value).data.isEmpty = false → parseOf type (jsTrim value) = none →
      parseNumber value type = ⟨none, parseFailMessage type⟩) ∧
    (∀ q, (jsTrim value).data.isEmpty = false → parseOf type (jsTrim value) = some q →
      q < 0 → parseNumber value type = ⟨none, "Must be non-negative."⟩) := by
  refine ⟨parseNumber_shape value type, ?_, ?_, ?_⟩
  · intro hblank
    rw [parseNumber_eq, if_pos hblank]
  · intro hblank hparse
    rw [parseNumber_eq, if_neg (by simp [hblank]), hparse]
  · intro q hblank hparse hneg
    rw [parseNumber_eq, if_neg (by simp [hblank]), hparse]
    simp [hneg]

/-- C10 witness: on input `" -3 "` as an `"int"` field the presence and
parse checks pass and the non-negativity check fires. -/
theorem parseNumber_result_shape_and_order_witness :
    parseNumber " -3 " .int = ⟨none, "Must be non-negative."⟩ :=
  (parseNumber_result_shape_and_order " -3 " .int).2.2.2 (-3)
    (by decide) (by decide) (by decide)

/-- A proxied HTTP response: its status and, when the proxy itself wrote
the body, the `error.code` / `error.message` envelope it wrote. -/
structure ProxyResponse where
  status : Nat
  errorCode : Option String
  message : Option String
  deriving DecidableEq

/-- Result of one call to `forwardRequest`: the response handed to the
caller and the number of `fetch` attempts that were made. -/
structure ForwardResult where
  response : ProxyResponse
  attempts : Nat
  deriving DecidableEq

/-- `forwardRequest` from `src/web/src/lib/api.ts`, abstracted over the
outcome of its single `fetch` call: a successful fetch is returned as-is;
a thrown fetch is caught and answered with status 502 and the body
`{ error: { code: "BACKEND_UNREACHABLE", message } }`.  The source
contains exactly one `fetch` inside one `try` and no retry loop, so every
path performs one attempt. -/
def forwardRequest (fetchOutcome : Except String ProxyResponse) : ForwardResult :=
  match fetchOutcome with
  | .ok res => { response := res, attempts := 1 }
  | .error msg =>
    { response :=
        { status := 502
          errorCode := some "BACKEND_UNREACHABLE"
          message := some msg }
      attempts := 1 }

/-- C8: when the backend fetch throws, `forwardRequest` answers 502 with
the distinct error code `"BACKEND_UNREACHABLE"` after exactly one fetch
attempt. -/
theorem forwardRequest_unreachable_502 (outcome : Except String ProxyResponse) (msg : String)
    (h : outcome = .error msg) :
    (forwardRequest outcome).response.status = 502 ∧
    (forwardRequest outcome).response.errorCode = some "BACKEND_UNREACHABLE" ∧
    (forwardRequest outcome).attempts = 1 := by
  subst h
  simp [forwardRequest]

/-- C8 witness: a concrete connection failure is surfaced as a 502 with
code `"BACKEND_UNREACHABLE"` in one attempt. -/
theorem forwardRequest_unreachable_502_witness :
    (forwardRequest (.error "fetch failed")).response.status = 502 ∧
    (forwardRequest (.error "fetch failed")).response.errorCode = some "BACKEND_UNREACHABLE" ∧
    (forwardRequest (.error "fetch failed")).attempts = 1 :=
  forwardRequest_unreachable_502 (.error "fetch failed") "fetch failed" rfl

/-- A stored capital-works row (the `TaskRecord` type of
`TaskEditModal.tsx`); `created_at` is modelled as seconds since the
epoch. -/
structure TaskRecord where
  sno : Nat
  sub_division : String
  account_code : String
  number_of_works : ℚ
  estimate_amount : ℚ
  agreement_amount : ℚ
  exp_upto_31_03_2025 : ℚ
  balance_amount_as_on_01_04_2025 : ℚ
  exp_upto_last_month : ℚ
  exp_during_this_month : ℚ
  total_exp_during_year : ℚ
  total_value_work_done_from_beginning : ℚ
  works_completed : ℚ
  balance_works : ℚ
  created_by : String
  created_at : Nat
  deriving DecidableEq

/-- Lower-case every character of a string. -/
def jsToLower (s : String) : String :=
  ⟨s.data.map Char.toLower⟩

/-- `needle` occurs as a contiguous substring of `haystack`. -/
def strContains (haystack needle : String) : Bool :=
  (List.range (haystack.data.length + 1)).any
    (fun i => needle.data.isPrefixOf (haystack.data.drop i))

/-- Modelled from the spec: the backend query engine (the FastAPI
`/tasks` and `/admin/*` handlers) is not under `src/`, so its
`sub_division` filter is taken from the spec — a case-insensitive
substring match against the record's `sub_division`. -/
def matchesSubDivision (wanted : Option String) (sub : String) : Bool :=
  match wanted with
  | none => true
  | some s => strContains (jsToLower sub) (jsToLower s)

/-- Modelled from the spec: a `date_from` / `date_to` query value is a
bare date or a date-time; a day index stands for the calendar date. -/
inductive DateBound
  | date (day : Nat)
  | datetime (ts : Nat)
  deriving DecidableEq

def secondsPerDay : Nat := 86400

/-- Modelled from the spec: a bare-date lower bound means that date's
start of day. -/
def lowerBoundTs : DateBound → Nat
  | .date d => d * secondsPerDay
  | .datetime t => t

/-- Modelled from the spec: a bare-date upper bound means that date's end
of day. -/
def upperBoundTs : DateBound → Nat
  | .date d => d * secondsPerDay + (secondsPerDay - 1)
  | .datetime t => t

/-- Modelled from the spec: the filter shared by `list` and `summarize`;
every member is optional and the members are AND-combined. -/
structure QueryFilter where
  sub_division : Option String
  account_code : Option String
  date_from : Option DateBound
  date_to : Option DateBound
  deriving DecidableEq

/-- Modelled from the spec: a record passes the filter when the
sub-division substring matches, the account code matches exactly, and
`created_at` lies inside the inclusive date bounds. -/
def matchesFilter (f : QueryFilter) (r : TaskRecord) : Bool :=
  matchesSubDivision f.sub_division r.sub_division &&
  (match f.account_code with
    | none => true
    | some code => r.account_code == code) &&
  (match f.date_from with
    | none => true
    | some b => lowerBoundTs b ≤ r.created_at) &&
  (match f.date_to with
    | none => true
    | some b => r.created_at ≤ upperBoundTs b)

/-- The summed numeric fields of a summary row (raw plus derived numeric
fields of §3, excluding identity and classification). -/
structure Totals where
  number_of_works : ℚ
  estimate_amount : ℚ
  agreement_amount : ℚ
  exp_upto_31_03_2025 : ℚ
  balance_amount_as_on_01_04_2025 : ℚ
  exp_upto_last_month : ℚ
  exp_during_this_month : ℚ
  total_exp_during_year : ℚ
  total_value_work_done_from_beginning : ℚ
  works_completed : ℚ
  balance_works : ℚ
  deriving DecidableEq

def zeroTotals : Totals := ⟨0, 0, 0, 0, 0, 0, 0, 0, 0, 0, 0⟩

/-- Add one record's numeric fields into a running total. -/
def addTotals (t : Totals) (r : TaskRecord) : Totals :=
  ⟨t.number_of_works + r.number_of_works,
    t.estimate_amount + r.estimate_amount,
    t.agreement_amount + r.agreement_amount,
    t.exp_upto_31_03_2025 + r.exp_upto_31_03_2025,
    t.balance_amount_as_on_01_04_2025 + r.balance_amount_as_on_01_04_2025,
    t.exp_upto_last_month + r.exp_upto_last_month,
    t.exp_during_this_month + r.exp_during_this_month,
    t.total_exp_during_year + r.total_exp_during_year,
    t.total_value_work_done_from_beginning + r.total_value_work_done_from_beginning,
    t.works_completed + r.works_completed,
    t.balance_works + r.balance_works⟩

/-- Modelled from the spec: each total is the sum of that numeric field
over the given records. -/
def sumTotals (records : List TaskRecord) : Totals :=
  records.foldl addTotals zeroTotals

/-- The eleven summed numeric fields, as an index type. -/
inductive TotalsField
  | number_of_works
  | estimate_amount
  | agreement_amount
  | exp_upto_31_03_2025
  | balance_amount_as_on_01_04_2025
  | exp_upto_last_month
  | exp_during_this_month
  | total_exp_during_year
  | total_value_work_done_from_beginning
  | works_completed
  | balance_works
  deriving DecidableEq

/-- Project one summed field out of a `Totals`. -/
def Totals.proj (t : Totals) : TotalsField → ℚ
  | .number_of_works => t.number_of_works
  | .estimate_amount => t.estimate_amount
  | .agreement_amount => t.agreement_amount
  | .exp_upto_31_03_2025 => t.exp_upto_31_03_2025
  | .balance_amount_as_on_01_04_2025 => t.balance_amount_as_on_01_04_2025
  | .exp_upto_last_month => t.exp_upto_last_month
  | .exp_during_this_month => t.exp_during_this_month
  | .total_exp_during_year => t.total_exp_during_year
  | .total_value_work_done_from_beginning => t.total_value_work_done_from_beginning
  | .works_completed => t.works_completed
  | .balance_works => t.balance_works

/-- Project one summed numeric field out of a record. -/
def TaskRecord.numField (r : TaskRecord) : TotalsField → ℚ
  | .number_of_works => r.number_of_works
  | .estimate_amount => r.estimate_amount
  | .agreement_amount => r.agreement_amount
  | .exp_upto_31_03_2025 => r.exp_upto_31_03_2025
  | .balance_amount_as_on_01_04_2025 => r.balance_amount_as_on_01_04_2025
  | .exp_upto_last_month => r.exp_upto_last_month
  | .exp_during_this_month => r.exp_during_this_month
  | .total_exp_during_year => r.total_exp_during_year
  | .total_value_work_done_from_beginning => r.total_value_work_done_from_beginning
  | .works_completed => r.works_completed
  | .balance_works => r.balance_works

theorem addTotals_proj (t : Totals) (r : TaskRecord) (fld : TotalsField) :
    (addTotals t r).proj fld = t.proj fld + r.numField fld := by
  cases fld <;> rfl

theorem foldl_addTotals_proj (l : List TaskRecord) (init : Totals) (fld : TotalsField) :
    (l.foldl addTotals init).proj fld =
      init.proj fld + (l.map (fun r => r.numField fld)).sum := by
  induction l generalizing init with
  | nil => simp
  | cons x xs ih =>
    simp only [List.foldl_cons, List.map_cons, List.sum_cons, ih, addTotals_proj]
    ring

theorem sumTotals_proj (l : List TaskRecord) (fld : TotalsField) :
    (sumTotals l).proj fld = (l.map (fun r => r.numField fld)).sum := by
  have h := foldl_addTotals_proj l zeroTotals fld
  have hz : zeroTotals.proj fld = 0 := by cases fld <;> rfl
  rw [sumTotals, h, hz, zero_add]

/-- One account-code bucket of a sub-division summary row. -/
structure AccountGroup where
  account_code : String
  totals : Totals
  deriving DecidableEq

/-- One sub-division summary row. -/
structure SubDivisionGroup where
  sub_division : String
  totals : Totals
  by_account_code : List AccountGroup
  deriving DecidableEq

/-- The summarize contract's result shape. -/
structure Summary where
  grand_totals : Totals
  by_sub_division : List SubDivisionGroup
  deriving DecidableEq

/-- The distinct values of a key list, in first-appearance order. -/
def distinctKeys (keys : List String) : List String :=
  keys.foldl (fun acc k => if k ∈ acc then acc else acc ++ [k]) []

/-- Modelled from the spec: within a sub-division, records are grouped by
exact `account_code` value and summed. -/
def accountGroups (group : List TaskRecord) : List AccountGroup :=
  (distinctKeys (group.map (fun r => r.account_code))).map
    (fun code => ⟨code, sumTotals (group.filter (fun r => r.account_code == code))⟩)

/-- Modelled from the spec: the summary row of one sub-division —
grouping key equality is the exact string, not the substring match used
for filtering. -/
def subDivisionGroup (filtered : List TaskRecord) (k : String) : SubDivisionGroup :=
  let group := filtered.filter (fun r => r.sub_division == k)
  ⟨k, sumTotals group, accountGroups group⟩

/-- Modelled from the spec: `summarize(records, filter)` — grand totals
over the filtered records, then per-sub-division (exact key) rows, then
per-account-code buckets; sub-divisions without matching records are
omitted because only keys of filtered records are listed. -/
def summarize (records : List TaskRecord) (f : QueryFilter) : Summary :=
  let filtered := records.filter (matchesFilter f)
  ⟨sumTotals filtered,
    (distinctKeys (filtered.map (fun r => r.sub_division))).map (subDivisionGroup filtered)⟩

theorem distinctKeys_subset (l : List String) : ∀ x ∈ distinctKeys l, x ∈ l := by
  suffices h : ∀ acc, ∀ x ∈ l.foldl (fun acc k => if k ∈ acc then acc else acc ++ [k]) acc,
      x ∈ acc ∨ x ∈ l by
    intro x hx
    rcases h [] x hx with hc | hc
    · cases hc
    · exact hc
  induction l with
  | nil => intro acc x hx; exact Or.inl hx
  | cons y ys ih =>
    intro acc x hx
    simp only [List.foldl_cons] at hx
    rcases ih _ x hx with hc | hc
    · by_cases hy : y ∈ acc
      · rw [if_pos hy] at hc
        exact Or.inl hc
      · rw [if_neg hy] at hc
        rcases List.mem_append.mp hc with hc2 | hc2
        · exact Or.inl hc2
        · simp only [List.mem_singleton] at hc2
          subst hc2
          exact Or.inr (List.mem_cons_self _ _)
    · exact Or.inr (List.mem_cons_of_mem _ hc)

/-- C5: every grand total of `summarize` is the sum of that numeric field
over exactly the records passing the filter; the sub-division filter is a
case-insensitive substring match (so `"north"` matches `"North Zone"`),
while each `by_sub_division` row's totals cover exactly the filtered
records whose `sub_division` equals its literal key, a key drawn from the
filtered records themselves. -/
theorem summarize_totals_and_grouping (records : List TaskRecord) (f : QueryFilter)
    (fld : TotalsField) :
    ((summarize records f).grand_totals.proj fld =
      ((records.filter (matchesFilter f)).map (fun r => r.numField fld)).sum) ∧
    (matchesSubDivision (some "north") "North Zone" = true) ∧
    (∀ g ∈ (summarize records f).by_sub_division,
      g.totals.proj fld =
        (((records.filter (matchesFilter f)).filter
            (fun r => r.sub_division == g.sub_division)).map
          (fun r => r.numField fld)).sum ∧
      g.sub_division ∈ (records.filter (matchesFilter f)).map (fun r => r.sub_division)) := by
  refine ⟨by simp [summarize, sumTotals_proj], by decide, ?_⟩
  intro g hg
  simp only [summarize, List.mem_map] at hg
  obtain ⟨k, hk, hgk⟩ := hg
  subst hgk
  constructor
  · simp [subDivisionGroup, sumTotals_proj]
  · exact distinctKeys_subset _ _ hk

/-- A record whose sub-division is the literal string "North Zone". -/
def northRecord : TaskRecord :=
  { sno := 1
    sub_division := "North Zone"
    account_code := "New"
    number_of_works := 2
    estimate_amount := 10
    agreement_amount := 9
    exp_upto_31_03_2025 := 4
    balance_amount_as_on_01_04_2025 := 5
    exp_upto_last_month := 1
    exp_during_this_month := 1
    total_exp_during_year := 2
    total_value_work_done_from_beginning := 6
    works_completed := 1
    balance_works := 1
    created_by := "alice"
    created_at := 100 }

/-- The filter that asks for sub-division "north". -/
def northFilter : QueryFilter :=
  { sub_division := some "north", account_code := none, date_from := none, date_to := none }

/-- C5 witness: filtering on `"north"` includes the "North Zone" record in
the grand total, and the only summary row is keyed by the literal string
"North Zone" with that record's total. -/
theorem summarize_totals_and_grouping_witness :
    (summarize [northRecord] northFilter).grand_totals.proj .number_of_works = 2 ∧
    (summarize [northRecord] northFilter).by_sub_division =
      [subDivisionGroup [northRecord] "North Zone"] ∧
    (subDivisionGroup [northRecord] "North Zone").sub_division = "North Zone" ∧
    (subDivisionGroup [northRecord] "North Zone").totals.proj .number_of_works = 2 := by
  have h := summarize_totals_and_grouping [northRecord] northFilter .number_of_works
  have hfilter : [northRecord].filter (matchesFilter northFilter) = [northRecord] := by decide
  have hkeys : distinctKeys ["North Zone"] = ["North Zone"] := by decide
  have hby : (summarize [northRecord] northFilter).by_sub_division =
      [subDivisionGroup [northRecord] "North Zone"] := by
    simp only [summarize, hfilter, List.map_cons, List.map_nil]
    rw [show northRecord.sub_division = "North Zone" from rfl, hkeys]
    simp
  refine ⟨?_, hby, by decide, ?_⟩
  · rw [h.1, hfilter]
    norm_num [northRecord, TaskRecord.numField]
  · have hmem : subDivisionGroup [northRecord] "North Zone" ∈
        (summarize [northRecord] northFilter).by_sub_division := by
      rw [hby]
      exact List.mem_singleton.mpr rfl
    have hg := (h.2.2 _ hmem).1
    rw [hg, hfilter]
    have hsub : [northRecord].filter
        (fun r => r.sub_division == (subDivisionGroup [northRecord] "North Zone").sub_division) =
        [northRecord] := by decide
    rw [hsub]
    norm_num [northRecord, TaskRecord.numField]

/-- A sort key: records are compared on a numeric or string field. -/
inductive SortKey
  | num (q : ℚ)
  | str (s : String)
  deriving DecidableEq

/-- Modelled from the spec: the sort key of a record for a `sort_by`
column name; an unknown name falls back to `sno`. -/
def sortKeyOf (sort_by : String) (r : TaskRecord) : SortKey :=
  match sort_by with
  | "sno" => .num r.sno
  | "sub_division" => .str r.sub_division
  | "account_code" => .str r.account_code
  | "number_of_works" => .num r.number_of_works
  | "estimate_amount" => .num r.estimate_amount
  | "agreement_amount" => .num r.agreement_amount
  | "exp_upto_31_03_2025" => .num r.exp_upto_31_03_2025
  | "balance_amount_as_on_01_04_2025" => .num r.balance_amount_as_on_01_04_2025
  | "exp_upto_last_month" => .num r.exp_upto_last_month
  | "exp_during_this_month" => .num r.exp_during_this_month
  | "total_exp_during_year" => .num r.total_exp_during_year
  | "total_value_work_done_from_beginning" => .num r.total_value_work_done_from_beginning
  | "works_completed" => .num r.works_completed
  | "balance_works" => .num r.balance_works
  | "created_by" => .str r.created_by
  | "created_at" => .num r.created_at
  | _ => .num r.sno

/-- Compare two sort keys (keys of one listing always share a shape). -/
def SortKey.le : SortKey → SortKey → Bool
  | .num a, .num b => a ≤ b
  | .str a, .str b => a ≤ b
  | .num _, .str _ => true
  | .str _, .num _ => false

/-- Insert a record into an already sorted list, before any record it
compares less-or-equal to, so equal keys keep their original order. -/
def insertBy (le : TaskRecord → TaskRecord → Bool) (r : TaskRecord) :
    List TaskRecord → List TaskRecord
  | [] => [r]
  | x :: xs => if le r x then r :: x :: xs else x :: insertBy le r xs

/-- Stable insertion sort. -/
def insertionSortBy (le : TaskRecord → TaskRecord → Bool) :
    List TaskRecord → List TaskRecord
  | [] => []
  | x :: xs => insertBy le x (insertionSortBy le xs)

/-- Modelled from the spec: stable sort of the filtered records on
`sort_by`, ascending unless `order = "desc"`. -/
def sortRecords (sort_by ord : String) (records : List TaskRecord) : List TaskRecord :=
  let le : TaskRecord → TaskRecord → Bool :=
    if ord = "desc" then fun a b => SortKey.le (sortKeyOf sort_by b) (sortKeyOf sort_by a)
    else fun a b => SortKey.le (sortKeyOf sort_by a) (sortKeyOf sort_by b)
  insertionSortBy le records

/-- The list contract's result shape. -/
structure ListResult where
  items : List TaskRecord
  page : Nat
  page_size : Nat
  total_items : Nat
  total_pages : Nat
  deriving DecidableEq

/-- Modelled from the spec: `list(records, filter, sort_by, order, page,
page_size)` — filter, stable-sort, clamp `page_size` into `1..500`,
compute `total_pages = ceil(total_items / page_size)` with minimum 1, and
slice the requested page (a page past the end simply yields no items). -/
def listTasks (records : List TaskRecord) (f : QueryFilter) (sort_by ord : String)
    (page page_size : Nat) : ListResult :=
  let filtered := records.filter (matchesFilter f)
  let sorted := sortRecords sort_by ord filtered
  let ps := min 500 (max 1 page_size)
  let total_items := sorted.length
  let total_pages := max 1 ((total_items + ps - 1) / ps)
  ⟨(sorted.drop ((page - 1) * ps)).take ps, page, ps, total_items, total_pages⟩

theorem insertBy_length (le : TaskRecord → TaskRecord → Bool) (r : TaskRecord)
    (l : List TaskRecord) : (insertBy le r l).length = l.length + 1 := by
  induction l with
  | nil => rfl
  | cons x xs ih =>
    by_cases h : le r x = true
    · simp [insertBy, h]
    · simp [insertBy, h, ih]

theorem insertionSortBy_length (le : TaskRecord → TaskRecord → Bool) (l : List TaskRecord) :
    (insertionSortBy le l).length = l.length := by
  induction l with
  | nil => rfl
  | cons x xs ih => simp [insertionSortBy, insertBy_length, ih]

theorem sortRecords_length (sort_by ord : String) (l : List TaskRecord) :
    (sortRecords sort_by ord l).length = l.length := by
  simp [sortRecords, insertionSortBy_length]

/-- C6: `listTasks` clamps `page_size` into `1..500`, reports
`total_pages = ceil(total_items / page_size)` but at least 1 even with no
items, counts exactly the filtered records, and answers a page past the
last page with an empty `items` array. -/
theorem listTasks_pagination (records : List TaskRecord) (f : QueryFilter)
    (sort_by ord : String) (page page_size : Nat) (hpage : 1 ≤ page) :
    (listTasks records f sort_by ord page page_size).total_items =
      (records.filter (matchesFilter f)).length ∧
    (listTasks records f sort_by ord page page_size).page_size =
      min 500 (max 1 page_size) ∧
    (listTasks records f sort_by ord page page_size).total_pages =
      max 1 (((records.filter (matchesFilter f)).length + min 500 (max 1 page_size) - 1) /
        min 500 (max 1 page_size)) ∧
    ((listTasks records f sort_by ord page page_size).total_pages < page →
      (listTasks records f sort_by ord page page_size).items = []) := by
  refine ⟨by simp [listTasks, sortRecords_length], rfl, by simp [listTasks, sortRecords_length], ?_⟩
  intro hbeyond
  simp only [listTasks] at hbeyond ⊢
  set n := (sortRecords sort_by ord (records.filter (matchesFilter f))).length with hn
  set ps := min 500 (max 1 page_size) with hps
  have hpos : 1 ≤ ps := by
    rw [hps]
    simp
  have hlen : n ≤ (page - 1) * ps := by
    rcases Nat.eq_zero_or_pos n with hn0 | hn1
    · simp [hn0]
    · have hsplit : n + ps - 1 = (n - 1) + ps := by omega
      have hq : (n + ps - 1) / ps = (n - 1) / ps + 1 := by
        rw [hsplit, Nat.add_div_right _ (by omega)]
      rw [hq] at hbeyond
      have hble : (n - 1) / ps + 1 ≤ page - 1 := by omega
      have hdm := Nat.div_add_mod (n - 1) ps
      have hmod : (n - 1) % ps < ps := Nat.mod_lt _ (by omega)
      have hmul : ((n - 1) / ps + 1) * ps = ps * ((n - 1) / ps) + ps := by ring
      calc n ≤ ((n - 1) / ps + 1) * ps := by omega
      _ ≤ (page - 1) * ps := Nat.mul_le_mul_right _ hble
  rw [List.drop_eq_nil_of_le (by rw [← hn]; exact hlen), List.take_nil]

/-- A filter no record matches. -/
def noMatchFilter : QueryFilter :=
  { sub_division := some "zzz", account_code := none, date_from := none, date_to := none }

/-- C6 witness: a filter matching zero records with `page_size = 500`
answers `{items: [], total_items: 0, total_pages: 1}`. -/
theorem listTasks_pagination_witness :
    (listTasks [northRecord] noMatchFilter "sno" "asc" 1 500).items = [] ∧
    (listTasks [northRecord] noMatchFilter "sno" "asc" 1 500).total_items = 0 ∧
    (listTasks [northRecord] noMatchFilter "sno" "asc" 1 500).total_pages = 1 := by
  have h := listTasks_pagination [northRecord] noMatchFilter "sno" "asc" 1 500 (by decide)
  have hfilter : [northRecord].filter (matchesFilter noMatchFilter) = [] := by decide
  refine ⟨by decide, ?_, ?_⟩
  · rw [h.1, hfilter]
    rfl
  · rw [h.2.2.1, hfilter]
    rfl

/-- C7: the `created_at` date filter is inclusive at both ends, a
bare-date lower bound is that date's start of day and a bare-date upper
bound is that date's end of day, so filtering with `date_from` and
`date_to` both set to day `d` accepts every record whose timestamp falls
anywhere on day `d`; exact-timestamp bounds also include the boundary
record. -/
theorem dateFilter_inclusive_day (r : TaskRecord) (d : Nat)
    (hday : r.created_at / secondsPerDay = d) :
    matchesFilter
      { sub_division := none, account_code := none,
        date_from := some (.date d), date_to := some (.date d) } r = true ∧
    matchesFilter
      { sub_division := none, account_code := none,
        date_from := some (.datetime r.created_at),
        date_to := some (.datetime r.created_at) } r = true := by
  have hday2 : r.created_at / 86400 = d := by
    rw [← hday]
    norm_num [secondsPerDay]
  constructor
  · simp only [matchesFilter, matchesSubDivision, lowerBoundTs, upperBoundTs, secondsPerDay,
      Bool.and_eq_true, decide_eq_true_eq, Bool.and_true, Bool.true_and]
    refine ⟨?_, ?_⟩ <;> omega
  · simp [matchesFilter, matchesSubDivision, lowerBoundTs, upperBoundTs]

/-- C7 witness: `northRecord` (timestamp 100, day 0) passes a filter with
`date_from` and `date_to` both the bare date of day 0, and one with exact
timestamp bounds. -/
theorem dateFilter_inclusive_day_witness :
    matchesFilter
      { sub_division := none, account_code := none,
        date_from := some (.date 0), date_to := some (.date 0) } northRecord = true ∧
    matchesFilter
      { sub_division := none, account_code := none,
        date_from := some (.datetime northRecord.created_at),
        date_to := some (.datetime northRecord.created_at) } northRecord = true :=
  dateFilter_inclusive_day northRecord 0 (by decide)
